import Mathlib

/-!
Shallow embedding of `card.py` from the blackjack2020 repository.

The module defines a class `Card` (a playing-card value object with a
face-up/face-down visibility gate) and a subclass `SchopskopfCard` that
overrides equality.  Python strings become Lean `String`, Python `str.lower`
and `str.upper` become character-wise ASCII case maps, the class-level
lookup tables become list/zip/lookup functions exactly as in the source, and
the module-level flags `Card.useUnicode` and `Card.debugMode` become an
explicit `Config` record threaded through the methods that can observe
module state.  Fallible methods return `Except PyErr _`, where `PyErr`
distinguishes the Python exception classes raised by the source
(`RuleError`, `TypeError`, `ValueError`).
-/

namespace Blackjack

/-- Equality of `Except` values is decidable when it is on both sides. -/
instance {ε α : Type} [DecidableEq ε] [DecidableEq α] : DecidableEq (Except ε α) := fun x y =>
  match x, y with
  | .error a, .error b =>
    if h : a = b then .isTrue (h ▸ rfl)
    else .isFalse (fun hc => h (by cases hc; rfl))
  | .error _, .ok _ => .isFalse (fun hc => Except.noConfusion hc)
  | .ok _, .error _ => .isFalse (fun hc => Except.noConfusion hc)
  | .ok a, .ok b =>
    if h : a = b then .isTrue (h ▸ rfl)
    else .isFalse (fun hc => h (by cases hc; rfl))

/-- Python `str.lower`: character-wise ASCII lower-casing. -/
def pyLower (s : String) : String := String.mk (s.data.map Char.toLower)

/-- Python `str.upper`: character-wise ASCII upper-casing. -/
def pyUpper (s : String) : String := String.mk (s.data.map Char.toUpper)

/-- Python `str.capitalize`: first character upper-cased, the rest lower-cased. -/
def pyCapitalize (s : String) : String :=
  match s.data with
  | [] => ""
  | c :: cs => String.mk (c.toUpper :: cs.map Char.toLower)

/-- The Python exception classes raised by `card.py`:
`RuleError` (the CardNotShowing rule violation), `TypeError`
(invalid constructor argument, or comparison operand of the wrong type)
and `ValueError` (invalid suit given to the suit setter). -/
inductive PyErr where
  | ruleError (msg : String)
  | typeError (msg : String)
  | valueError (msg : String)
  deriving DecidableEq, Repr

/-- The concrete Python class of a card object: `Card` or its subclass
`SchopskopfCard` (which inherits `__init__` and overrides only `__eq__`). -/
inductive CType where
  | card
  | schopskopf
  deriving DecidableEq, Repr, Inhabited

/-- The module-level configuration shared by all instances:
the class variables `Card.useUnicode` and `Card.debugMode`. -/
structure Config where
  useUnicode : Bool
  debugMode : Bool
  deriving DecidableEq, Repr

/-- The values of the class variables at module load:
`useUnicode = True`, `debugMode = False`. -/
def defaultConfig : Config := { useUnicode := true, debugMode := false }

/-- The per-instance state of a card: the private fields set by
`Card.__init__`, plus the concrete class of the object. -/
structure CardState where
  name : String
  shortName : String
  suit : String
  rank : Nat
  hardValue : Nat
  softValue : Nat
  isFacecard : Bool
  isAce : Bool
  isShowing : Bool
  ctype : CType
  deriving DecidableEq, Repr, Inhabited

namespace Card

/-- Class variable `Card.suits`. -/
def suits : List String := ["clubs", "spades", "hearts", "diamonds"]

/-- Class variable `Card.unicode` (the four suit glyphs). -/
def unicode : List String := ["♣", "♠", "♡", "♢"]

/-- Class variable `Card.unicodeDict = dict(zip(suits, unicode))`. -/
def unicodeDict (s : String) : String :=
  ((suits.zip unicode).lookup s).getD ""

/-- Class variable `Card.names`. -/
def names : List String :=
  ["ace", "2", "3", "4", "5", "6", "7", "8", "9", "10", "jack", "queen", "king"]

/-- Class variable `Card.shortNames`. -/
def shortNames : List String :=
  ["A", "2", "3", "4", "5", "6", "7", "8", "9", "10", "J", "Q", "K"]

/-- Class variable `Card.shortNameDict = dict(zip(names, shortNames))`. -/
def shortNameDict (n : String) : String :=
  ((names.zip shortNames).lookup n).getD ""

/-- Class variable `Card.hardValues`. -/
def hardValues : List Nat := [1, 2, 3, 4, 5, 6, 7, 8, 9, 10, 10, 10, 10]

/-- Class variable `Card.softValues`. -/
def softValues : List Nat := [11, 2, 3, 4, 5, 6, 7, 8, 9, 10, 10, 10, 10]

/-- Class variable `Card.hardValueDict = dict(zip(names, hardValues))`. -/
def hardValueDict (n : String) : Nat :=
  ((names.zip hardValues).lookup n).getD 0

/-- Class variable `Card.softValueDict = dict(zip(names, softValues))`. -/
def softValueDict (n : String) : Nat :=
  ((names.zip softValues).lookup n).getD 0

/-- Class variable `Card.ranks`. -/
def ranks : List Nat := [1, 2, 3, 4, 5, 6, 7, 8, 9, 10, 11, 12, 13]

/-- Class variable `Card.rankDict = dict(zip(names, ranks))`. -/
def rankDict (n : String) : Nat :=
  ((names.zip ranks).lookup n).getD 0

/-- Second half of `Card.__init__`: the suit check and the assembly of the
instance state, run after the name has been normalized to `n`.  Mirrors the
source lines from the suit validity check to the final field assignments. -/
def initWithName (t : CType) (n suit : String) : Except PyErr CardState :=
  if pyLower suit ∈ suits then
    Except.ok
      { name := n
        shortName := shortNameDict n
        suit := pyLower suit
        rank := rankDict n
        hardValue := hardValueDict n
        softValue := softValueDict n
        isFacecard := decide (n ∈ ["jack", "queen", "king"])
        isAce := n == "ace"
        isShowing := false
        ctype := t }
  else
    Except.error (.typeError (suit ++ " is not a valid card suit."))

/-- `Card.__init__(self, name, suit)` (also inherited by `SchopskopfCard`):
name validated against the canonical names (lower-cased) and then against
the short names (upper-cased, mapped back through `shortNames.index`);
suit validated against the canonical suits (lower-cased). -/
def init (t : CType) (name suit : String) : Except PyErr CardState :=
  if pyLower name ∈ names then
    initWithName t (pyLower name) suit
  else if pyUpper name ∈ shortNames then
    initWithName t (pyLower (names.getD (shortNames.indexOf (pyUpper name)) "")) suit
  else
    Except.error (.typeError (name ++ " is not a valid card name."))

/-- `Card.flip`: toggles the visibility state and returns the card itself. -/
def flip (c : CardState) : CardState := { c with isShowing := !c.isShowing }

/-- Property getter `Card.name`: gated on `isShowing`. -/
def getName (cfg : Config) (c : CardState) : Except PyErr String :=
  if c.isShowing then Except.ok c.name
  else Except.error (.ruleError "card is not showing, you can not use name()")

/-- Property getter `Card.suit`: gated on `isShowing`. -/
def getSuit (cfg : Config) (c : CardState) : Except PyErr String :=
  if c.isShowing then Except.ok c.suit
  else Except.error (.ruleError "card is not showing, you can not use suit()")

/-- Property getter `Card.rank`: gated on `isShowing`. -/
def getRank (cfg : Config) (c : CardState) : Except PyErr Nat :=
  if c.isShowing then Except.ok c.rank
  else Except.error (.ruleError "card is not showing, you can not use rank()")

/-- Property getter `Card.hardValue`: gated on `isShowing`. -/
def getHardValue (cfg : Config) (c : CardState) : Except PyErr Nat :=
  if c.isShowing then Except.ok c.hardValue
  else Except.error (.ruleError "card is not showing, you can not use hard_value()")

/-- Property getter `Card.softValue`: gated on `isShowing`
(the source message also says hard_value, a copy-paste in the original). -/
def getSoftValue (cfg : Config) (c : CardState) : Except PyErr Nat :=
  if c.isShowing then Except.ok c.softValue
  else Except.error (.ruleError "card is not showing, you can not use hard_value()")

/-- Property getter `Card.isFacecard`: gated on `isShowing`. -/
def getIsFacecard (cfg : Config) (c : CardState) : Except PyErr Bool :=
  if c.isShowing then Except.ok c.isFacecard
  else Except.error (.ruleError "card is not showing, you can not use is_face_card()")

/-- Property getter `Card.isAce`: gated on `isShowing`. -/
def getIsAce (cfg : Config) (c : CardState) : Except PyErr Bool :=
  if c.isShowing then Except.ok c.isAce
  else Except.error (.ruleError "card is not showing, you can not use is_ace()")

/-- Property setter `Card.suit`: accepts exactly the canonical suit strings,
without any visibility requirement; raises `ValueError` otherwise. -/
def setSuit (c : CardState) (newSuit : String) : Except PyErr CardState :=
  if newSuit ∈ suits then Except.ok { c with suit := newSuit }
  else Except.error (.valueError (newSuit ++ " must be in the list of suits"))

/-- `Card.sameSuit(self, other)`: exact-type check, the both-face-down gate,
then `self.suit == other.suit` through the gated property getters. -/
def sameSuit (cfg : Config) (self other : CardState) : Except PyErr Bool :=
  if other.ctype ≠ self.ctype then
    Except.error (.typeError "Cant compare that type to a Card.")
  else if !self.isShowing && !other.isShowing then
    Except.error (.ruleError "card is not showing, you can not use sameSuit()")
  else
    match getSuit cfg self with
    | Except.error e => Except.error e
    | Except.ok a =>
      match getSuit cfg other with
      | Except.error e => Except.error e
      | Except.ok b => Except.ok (a == b)

/-- `Card.sameRank(self, other)`: exact-type check, the both-face-down gate,
then `self.rank == other.rank` through the gated property getters. -/
def sameRank (cfg : Config) (self other : CardState) : Except PyErr Bool :=
  if other.ctype ≠ self.ctype then
    Except.error (.typeError "Cant compare that type to a Card.")
  else if !self.isShowing && !other.isShowing then
    Except.error (.ruleError "card is not showing, you can not use sameRank()")
  else
    match getRank cfg self with
    | Except.error e => Except.error e
    | Except.ok a =>
      match getRank cfg other with
      | Except.error e => Except.error e
      | Except.ok b => Except.ok (a == b)

/-- `Card.__eq__`: `self.sameRank(other) and self.sameSuit(other)` with
Python short-circuit `and`. -/
def eqMethod (cfg : Config) (self other : CardState) : Except PyErr Bool :=
  match sameRank cfg self other with
  | Except.error e => Except.error e
  | Except.ok r => if r then sameSuit cfg self other else Except.ok false

/-- `Card.__lt__`: compares the private rank fields directly; no visibility
check, no type check among cards, no error path. -/
def ltMethod (a b : CardState) : Bool := decide (a.rank < b.rank)

/-- `Card.__str__`: symbolic short form when `useUnicode`, otherwise
capitalized long form; both overridden by the face-down placeholder when the
card is hidden and debug mode is off. -/
def strMethod (cfg : Config) (c : CardState) : String :=
  let s :=
    if cfg.useUnicode then c.shortName ++ unicodeDict c.suit
    else pyCapitalize c.name ++ " of " ++ pyCapitalize c.suit
  if !c.isShowing && !cfg.debugMode then "[face down]" else s

end Card

namespace SchopskopfCard

/-- `SchopskopfCard.__eq__`: `self.suit == other.suit and self.name ==
other.name`, with Python short-circuit `and`.  `self.suit`, `self.name` are
the property getters inherited from `Card` (the private fields are
name-mangled and not reachable this way), so every read goes through the
visibility gate.  There is no operand type check. -/
def eqMethod (cfg : Config) (self other : CardState) : Except PyErr Bool :=
  match Card.getSuit cfg self with
  | Except.error e => Except.error e
  | Except.ok s1 =>
    match Card.getSuit cfg other with
    | Except.error e => Except.error e
    | Except.ok s2 =>
      if s1 == s2 then
        match Card.getName cfg self with
        | Except.error e => Except.error e
        | Except.ok n1 =>
          match Card.getName cfg other with
          | Except.error e => Except.error e
          | Except.ok n2 => Except.ok (n1 == n2)
      else Except.ok false

end SchopskopfCard

/-- Python `a == b` on card objects.  When the right operand's class is a
proper subclass of the left's and overrides `__eq__`, Python calls the
reflected method first: `b.__eq__(a)`.  `SchopskopfCard.__eq__` never
returns `NotImplemented`, so its answer is final.  Otherwise the left
operand's own `__eq__` runs. -/
def pyEq (cfg : Config) (a b : CardState) : Except PyErr Bool :=
  if a.ctype = CType.card ∧ b.ctype = CType.schopskopf then
    SchopskopfCard.eqMethod cfg b a
  else
    match a.ctype with
    | CType.card => Card.eqMethod cfg a b
    | CType.schopskopf => SchopskopfCard.eqMethod cfg a b

/-- The ace of spades as constructed by `Card('ace', 'spades')` (face down). -/
def aceSpadesDown : CardState :=
  ((Card.init CType.card "ace" "spades").toOption).getD default

/-- The ace of spades after one `flip()` (face up). -/
def aceSpadesUp : CardState := Card.flip aceSpadesDown

/-- The ace of hearts as constructed by `Card('ace', 'hearts')` (face down). -/
def aceHeartsDown : CardState :=
  ((Card.init CType.card "ace" "hearts").toOption).getD default

/-- A face-down `SchopskopfCard('ace', 'spades')`. -/
def schopskopfAceSpadesDown : CardState :=
  ((Card.init CType.schopskopf "ace" "spades").toOption).getD default

/-- A face-up `SchopskopfCard('ace', 'spades')`. -/
def schopskopfAceSpadesUp : CardState := Card.flip schopskopfAceSpadesDown

end Blackjack

namespace Blackjack

/-! Helper lemmas about the lookup tables and the constructor. -/

/-- Canonical names are already lower-case. -/
lemma pyLower_of_mem_names {n : String} (h : n ∈ Card.names) : pyLower n = n := by
  fin_cases h <;> decide

/-- Canonical suits are already lower-case. -/
lemma pyLower_of_mem_suits {s : String} (h : s ∈ Card.suits) : pyLower s = s := by
  fin_cases h <;> decide

/-- When the suit is valid, `initWithName` succeeds with the assembled state. -/
lemma initWithName_ok {t : CType} {n suit : String} (hs : pyLower suit ∈ Card.suits) :
    Card.initWithName t n suit = Except.ok
      { name := n
        shortName := Card.shortNameDict n
        suit := pyLower suit
        rank := Card.rankDict n
        hardValue := Card.hardValueDict n
        softValue := Card.softValueDict n
        isFacecard := decide (n ∈ ["jack", "queen", "king"])
        isAce := n == "ace"
        isShowing := false
        ctype := t } := by
  unfold Card.initWithName
  rw [if_pos hs]

/-- `initWithName` only looks at the lower-casing of a valid suit argument. -/
lemma initWithName_suit_congr {t : CType} {n s s2 : String}
    (hs2 : pyLower s2 = pyLower s) (hs : pyLower s ∈ Card.suits) :
    Card.initWithName t n s2 = Card.initWithName t n s := by
  unfold Card.initWithName
  rw [hs2, if_pos hs, if_pos hs]

/-- Mapping a short name back through `names[shortNames.index(u)]` and
lower-casing lands on a canonical name. -/
lemma short_roundtrip_mem {u : String} (h : u ∈ Card.shortNames) :
    pyLower (Card.names.getD (Card.shortNames.indexOf u) "") ∈ Card.names := by
  fin_cases h <;> decide

/-- A successful `initWithName` makes a face-down card. -/
lemma initWithName_isShowing {t : CType} {n suit : String} {c : CardState}
    (h : Card.initWithName t n suit = Except.ok c) : c.isShowing = false := by
  unfold Card.initWithName at h
  split at h
  · cases h
    rfl
  · simp at h

/-- A successful `Card.init` makes a face-down card. -/
lemma init_isShowing {t : CType} {nm suit : String} {c : CardState}
    (h : Card.init t nm suit = Except.ok c) : c.isShowing = false := by
  unfold Card.init at h
  split at h
  · exact initWithName_isShowing h
  · split at h
    · exact initWithName_isShowing h
    · simp at h

/-! The claims. -/

/-- Claim C4: `__lt__` compares the stored ranks directly, with no error
path and no dependence on either card's visibility: `a < b` holds exactly
when `a`'s stored rank is strictly below `b`'s, and flipping either card
does not change the outcome. -/
theorem claim4_lt_ungated (a b : CardState) :
    (Card.ltMethod a b = true ↔ a.rank < b.rank) ∧
    Card.ltMethod (Card.flip a) b = Card.ltMethod a b ∧
    Card.ltMethod a (Card.flip b) = Card.ltMethod a b := by
  refine ⟨by simp [Card.ltMethod], rfl, rfl⟩

/-- Claim C9: every successfully constructed card starts face down, and
`flip` toggles exactly the visibility bit: flipping twice restores the
state, and every other stored field is untouched by a flip. -/
theorem claim9_flip_toggle (t : CType) (nm st : String) (c d : CardState)
    (h : Card.init t nm st = Except.ok c) :
    c.isShowing = false ∧
    (Card.flip d).isShowing = !d.isShowing ∧
    Card.flip (Card.flip d) = d ∧
    (Card.flip d).name = d.name ∧
    (Card.flip d).shortName = d.shortName ∧
    (Card.flip d).suit = d.suit ∧
    (Card.flip d).rank = d.rank ∧
    (Card.flip d).hardValue = d.hardValue ∧
    (Card.flip d).softValue = d.softValue ∧
    (Card.flip d).isFacecard = d.isFacecard ∧
    (Card.flip d).isAce = d.isAce := by
  refine ⟨init_isShowing h, rfl, ?_, rfl, rfl, rfl, rfl, rfl, rfl, rfl, rfl⟩
  cases d
  simp [Card.flip]

/-- Witness for C9 at `Card('ace', 'spades')`, flipped once. -/
theorem claim9_flip_toggle_witness :
    aceSpadesDown.isShowing = false ∧
    Card.flip (Card.flip aceSpadesUp) = aceSpadesUp ∧
    (Card.flip aceSpadesUp).name = aceSpadesUp.name :=
  ⟨(claim9_flip_toggle CType.card "ace" "spades" aceSpadesDown aceSpadesUp rfl).1,
   (claim9_flip_toggle CType.card "ace" "spades" aceSpadesDown aceSpadesUp rfl).2.2.1,
   (claim9_flip_toggle CType.card "ace" "spades" aceSpadesDown aceSpadesUp rfl).2.2.2.1⟩

/-- Claim C6: the suit setter stores any canonical suit without requiring
the card to be showing, and on a non-canonical suit it raises
`InvalidArgument` (a `ValueError`) and produces no updated state, so the
previously stored suit is untouched. -/
theorem claim6_suit_setter (c : CardState) (newSuit : String) :
    (newSuit ∈ Card.suits →
       Card.setSuit c newSuit = Except.ok { c with suit := newSuit }) ∧
    (newSuit ∉ Card.suits →
       (∃ m, Card.setSuit c newSuit = Except.error (.valueError m)) ∧
       ∀ c2 : CardState, Card.setSuit c newSuit ≠ Except.ok c2) := by
  constructor
  · intro h
    unfold Card.setSuit
    rw [if_pos h]
  · intro h
    unfold Card.setSuit
    rw [if_neg h]
    exact ⟨⟨_, rfl⟩, fun c2 hc => Except.noConfusion hc⟩

/-- Witness for C6: assigning clubs to a face-down ten of diamonds works;
a capitalized suit is rejected with a `ValueError`. -/
theorem claim6_suit_setter_witness :
    Card.setSuit ((Card.init CType.card "10" "diamonds").toOption.getD default) "clubs" =
      Except.ok { (Card.init CType.card "10" "diamonds").toOption.getD default with suit := "clubs" } ∧
    (∃ m, Card.setSuit aceSpadesDown "Clubs" = Except.error (.valueError m)) :=
  ⟨(claim6_suit_setter ((Card.init CType.card "10" "diamonds").toOption.getD default) "clubs").1
     (by decide),
   ((claim6_suit_setter aceSpadesDown "Clubs").2 (by decide)).1⟩

end Blackjack

namespace Blackjack

/-- Claim C2, counterexample: with the debug flag on, the gated accessors of
a face-down card still raise `CardNotShowing` — the accessors in the source
never consult `debugMode` (only `__str__` does). -/
theorem claim2_counterexample :
    (Config.mk true true).debugMode = true ∧
    aceSpadesDown.isShowing = false ∧
    Card.getName (Config.mk true true) aceSpadesDown =
      Except.error (.ruleError "card is not showing, you can not use name()") ∧
    Card.getSuit (Config.mk true true) aceSpadesDown =
      Except.error (.ruleError "card is not showing, you can not use suit()") ∧
    Card.getRank (Config.mk true true) aceSpadesDown =
      Except.error (.ruleError "card is not showing, you can not use rank()") ∧
    Card.getHardValue (Config.mk true true) aceSpadesDown =
      Except.error (.ruleError "card is not showing, you can not use hard_value()") ∧
    Card.getSoftValue (Config.mk true true) aceSpadesDown =
      Except.error (.ruleError "card is not showing, you can not use hard_value()") ∧
    Card.getIsFacecard (Config.mk true true) aceSpadesDown =
      Except.error (.ruleError "card is not showing, you can not use is_face_card()") ∧
    Card.getIsAce (Config.mk true true) aceSpadesDown =
      Except.error (.ruleError "card is not showing, you can not use is_ace()") := by
  decide

/-- Claim C2, amended: the gated accessors depend only on the card's
`isShowing` flag — for every configuration, debug mode included, a showing
card yields its stored values and a hidden card raises `CardNotShowing`. -/
theorem claim2_amended_gate (cfg : Config) (c : CardState) :
    (c.isShowing = true →
       Card.getName cfg c = Except.ok c.name ∧
       Card.getSuit cfg c = Except.ok c.suit ∧
       Card.getRank cfg c = Except.ok c.rank ∧
       Card.getHardValue cfg c = Except.ok c.hardValue ∧
       Card.getSoftValue cfg c = Except.ok c.softValue ∧
       Card.getIsFacecard cfg c = Except.ok c.isFacecard ∧
       Card.getIsAce cfg c = Except.ok c.isAce) ∧
    (c.isShowing = false →
       (∃ m, Card.getName cfg c = Except.error (.ruleError m)) ∧
       (∃ m, Card.getSuit cfg c = Except.error (.ruleError m)) ∧
       (∃ m, Card.getRank cfg c = Except.error (.ruleError m)) ∧
       (∃ m, Card.getHardValue cfg c = Except.error (.ruleError m)) ∧
       (∃ m, Card.getSoftValue cfg c = Except.error (.ruleError m)) ∧
       (∃ m, Card.getIsFacecard cfg c = Except.error (.ruleError m)) ∧
       (∃ m, Card.getIsAce cfg c = Except.error (.ruleError m))) := by
  constructor
  · intro h
    simp [Card.getName, Card.getSuit, Card.getRank, Card.getHardValue,
      Card.getSoftValue, Card.getIsFacecard, Card.getIsAce, h]
  · intro h
    simp [Card.getName, Card.getSuit, Card.getRank, Card.getHardValue,
      Card.getSoftValue, Card.getIsFacecard, Card.getIsAce, h]

/-- Witness for the amended C2 at the ace of spades, with debug mode on in
both branches. -/
theorem claim2_amended_gate_witness :
    Card.getName (Config.mk true true) aceSpadesUp = Except.ok aceSpadesUp.name ∧
    (∃ m, Card.getName (Config.mk true true) aceSpadesDown = Except.error (.ruleError m)) :=
  ⟨((claim2_amended_gate (Config.mk true true) aceSpadesUp).1 rfl).1,
   ((claim2_amended_gate (Config.mk true true) aceSpadesDown).2 rfl).1⟩

/-- Claim C8: a card that is hidden while debug mode is off always renders
as the placeholder, whatever the symbolic flag says; in every other case the
symbolic flag selects between the short symbolic form and the capitalized
long form. -/
theorem claim8_str_rendering (cfg : Config) (c : CardState) :
    (c.isShowing = false → cfg.debugMode = false → Card.strMethod cfg c = "[face down]") ∧
    ((c.isShowing = true ∨ cfg.debugMode = true) →
       Card.strMethod cfg c =
         if cfg.useUnicode then c.shortName ++ Card.unicodeDict c.suit
         else pyCapitalize c.name ++ " of " ++ pyCapitalize c.suit) := by
  constructor
  · intro h1 h2
    simp [Card.strMethod, h1, h2]
  · intro h
    rcases h with h | h <;> simp [Card.strMethod, h]

/-- Witness for C8: with symbolic mode the showing ace of spades renders as
"A♠", the hidden one as "[face down]", and with symbolic mode off the
showing one as "Ace of Spades". -/
theorem claim8_str_rendering_witness :
    Card.strMethod defaultConfig aceSpadesUp = "A♠" ∧
    Card.strMethod defaultConfig aceSpadesDown = "[face down]" ∧
    Card.strMethod (Config.mk false false) aceSpadesUp = "Ace of Spades" :=
  ⟨((claim8_str_rendering defaultConfig aceSpadesUp).2 (Or.inl rfl)).trans (by decide),
   (claim8_str_rendering defaultConfig aceSpadesDown).1 rfl rfl,
   ((claim8_str_rendering (Config.mk false false) aceSpadesUp).2 (Or.inl rfl)).trans (by decide)⟩

end Blackjack

namespace Blackjack

/-- Claim C1, counterexample: with the first card showing and the second
face-down (both plain Cards), `sameRank` and `sameSuit` do not return a
boolean — the gated `rank`/`suit` property read on the hidden operand
raises `CardNotShowing`, even though the both-face-down gate was passed. -/
theorem claim1_counterexample :
    aceSpadesUp.isShowing = true ∧
    aceHeartsDown.isShowing = false ∧
    aceSpadesUp.ctype = aceHeartsDown.ctype ∧
    Card.sameRank defaultConfig aceSpadesUp aceHeartsDown =
      Except.error (.ruleError "card is not showing, you can not use rank()") ∧
    Card.sameSuit defaultConfig aceSpadesUp aceHeartsDown =
      Except.error (.ruleError "card is not showing, you can not use suit()") := by
  decide

/-- Claim C1, amended: for same-type operands, `sameRank`/`sameSuit` return
the boolean rank/suit equality exactly when both cards are showing; when at
least one card is face-down they raise `CardNotShowing` — from the explicit
gate when both are hidden, and from the gated property read when exactly
one is. -/
theorem claim1_amended_gate (cfg : Config) (a b : CardState) (h : a.ctype = b.ctype) :
    (a.isShowing = true → b.isShowing = true →
       Card.sameRank cfg a b = Except.ok (a.rank == b.rank) ∧
       Card.sameSuit cfg a b = Except.ok (a.suit == b.suit)) ∧
    (a.isShowing = false ∨ b.isShowing = false →
       (∃ m, Card.sameRank cfg a b = Except.error (.ruleError m)) ∧
       (∃ m, Card.sameSuit cfg a b = Except.error (.ruleError m))) := by
  constructor
  · intro ha hb
    simp [Card.sameRank, Card.sameSuit, Card.getRank, Card.getSuit, h, ha, hb]
  · intro hcase
    cases ha : a.isShowing <;> cases hb : b.isShowing
    · simp [Card.sameRank, Card.sameSuit, h, ha, hb]
    · simp [Card.sameRank, Card.sameSuit, Card.getRank, Card.getSuit, h, ha, hb]
    · simp [Card.sameRank, Card.sameSuit, Card.getRank, Card.getSuit, h, ha, hb]
    · rw [ha, hb] at hcase
      rcases hcase with hc | hc <;> cases hc

/-- Witness for the amended C1: two showing aces compare by rank, and a
showing/hidden pair raises. -/
theorem claim1_amended_gate_witness :
    Card.sameRank defaultConfig aceSpadesUp (Card.flip aceHeartsDown) =
      Except.ok (aceSpadesUp.rank == (Card.flip aceHeartsDown).rank) ∧
    (∃ m, Card.sameSuit defaultConfig aceSpadesUp aceHeartsDown =
      Except.error (.ruleError m)) :=
  ⟨((claim1_amended_gate defaultConfig aceSpadesUp (Card.flip aceHeartsDown) rfl).1 rfl rfl).1,
   ((claim1_amended_gate defaultConfig aceSpadesUp aceHeartsDown rfl).2 (Or.inr rfl)).2⟩

/-- Claim C3, counterexample: comparing two face-down `SchopskopfCard`s
with `==` raises `CardNotShowing` — the overridden equality reads
`self.suit` and `self.name` through the gated properties inherited from
`Card` (the raw name-mangled fields are not what those expressions reach). -/
theorem claim3_counterexample :
    schopskopfAceSpadesDown.isShowing = false ∧
    schopskopfAceSpadesDown.ctype = CType.schopskopf ∧
    pyEq defaultConfig schopskopfAceSpadesDown schopskopfAceSpadesDown =
      Except.error (.ruleError "card is not showing, you can not use suit()") := by
  decide

/-- Claim C3, amended: `SchopskopfCard` equality compares suit and name
through the gated accessors: it raises `CardNotShowing` whenever either
operand is face-down, and when both are showing it returns true iff the
suits match and the names match (it does bypass `sameRank`/`sameSuit` and
their operand type check). -/
theorem claim3_amended_gate (cfg : Config) (a b : CardState)
    (ha : a.ctype = CType.schopskopf) (hb : b.ctype = CType.schopskopf) :
    (a.isShowing = true → b.isShowing = true →
       pyEq cfg a b = Except.ok (a.suit == b.suit && a.name == b.name)) ∧
    (a.isShowing = false ∨ b.isShowing = false →
       ∃ m, pyEq cfg a b = Except.error (.ruleError m)) := by
  constructor
  · intro hsa hsb
    by_cases hsuit : a.suit = b.suit <;>
      simp [pyEq, SchopskopfCard.eqMethod, Card.getSuit, Card.getName,
        ha, hb, hsa, hsb, hsuit]
  · intro hcase
    cases hsa : a.isShowing <;> cases hsb : b.isShowing
    · simp [pyEq, SchopskopfCard.eqMethod, Card.getSuit, Card.getName, ha, hb, hsa, hsb]
    · simp [pyEq, SchopskopfCard.eqMethod, Card.getSuit, Card.getName, ha, hb, hsa, hsb]
    · simp [pyEq, SchopskopfCard.eqMethod, Card.getSuit, Card.getName, ha, hb, hsa, hsb]
    · rw [hsa, hsb] at hcase
      rcases hcase with hc | hc <;> cases hc

/-- Witness for the amended C3: two showing Schopskopf aces of spades are
equal, and a showing/hidden pair raises. -/
theorem claim3_amended_gate_witness :
    pyEq defaultConfig schopskopfAceSpadesUp schopskopfAceSpadesUp =
      Except.ok (schopskopfAceSpadesUp.suit == schopskopfAceSpadesUp.suit &&
        schopskopfAceSpadesUp.name == schopskopfAceSpadesUp.name) ∧
    (∃ m, pyEq defaultConfig schopskopfAceSpadesUp schopskopfAceSpadesDown =
      Except.error (.ruleError m)) :=
  ⟨(claim3_amended_gate defaultConfig schopskopfAceSpadesUp schopskopfAceSpadesUp
      rfl rfl).1 rfl rfl,
   (claim3_amended_gate defaultConfig schopskopfAceSpadesUp schopskopfAceSpadesDown
      rfl rfl).2 (Or.inr rfl)⟩

end Blackjack

namespace Blackjack

/-- `SchopskopfCard.__eq__` can only raise through the gated suit/name
reads, so it never produces a `TypeError`. -/
lemma schopskopfEq_no_typeError (cfg : Config) (a b : CardState) (m : String) :
    SchopskopfCard.eqMethod cfg a b ≠ Except.error (.typeError m) := by
  cases hsa : a.isShowing <;> cases hsb : b.isShowing <;>
    by_cases hsuit : a.suit = b.suit <;>
      simp [SchopskopfCard.eqMethod, Card.getSuit, Card.getName, hsa, hsb, hsuit]

/-- Claim C10, counterexample: `==` between a showing `Card` and a showing
`SchopskopfCard` does not raise `TypeMismatch` in either direction —
Python dispatches to `SchopskopfCard.__eq__` (reflected first for the
subclass operand), which has no type check, and here returns `True`. -/
theorem claim10_counterexample :
    aceSpadesUp.ctype = CType.card ∧
    schopskopfAceSpadesUp.ctype = CType.schopskopf ∧
    pyEq defaultConfig aceSpadesUp schopskopfAceSpadesUp = Except.ok true ∧
    pyEq defaultConfig schopskopfAceSpadesUp aceSpadesUp = Except.ok true := by
  decide

/-- Claim C10, amended: the exact-type check of `sameRank`/`sameSuit` makes
all four cross-type helper calls raise `TypeMismatch`, but `==` between a
`Card` and a `SchopskopfCard` dispatches to `SchopskopfCard.__eq__` in both
operand orders (Python tries the subclass's reflected method first), which
performs no type check, so `==` never raises `TypeMismatch`. -/
theorem claim10_amended_type_check (cfg : Config) (c s : CardState)
    (hc : c.ctype = CType.card) (hs : s.ctype = CType.schopskopf) :
    (∃ m, Card.sameRank cfg c s = Except.error (.typeError m)) ∧
    (∃ m, Card.sameSuit cfg c s = Except.error (.typeError m)) ∧
    (∃ m, Card.sameRank cfg s c = Except.error (.typeError m)) ∧
    (∃ m, Card.sameSuit cfg s c = Except.error (.typeError m)) ∧
    pyEq cfg c s = SchopskopfCard.eqMethod cfg s c ∧
    pyEq cfg s c = SchopskopfCard.eqMethod cfg s c ∧
    (∀ m, pyEq cfg c s ≠ Except.error (.typeError m)) ∧
    (∀ m, pyEq cfg s c ≠ Except.error (.typeError m)) := by
  have hty : s.ctype ≠ c.ctype := by
    rw [hc, hs]
    exact fun hx => CType.noConfusion hx
  have h1 : pyEq cfg c s = SchopskopfCard.eqMethod cfg s c := by
    simp [pyEq, hc, hs]
  have h2 : pyEq cfg s c = SchopskopfCard.eqMethod cfg s c := by
    simp [pyEq, hc, hs]
  refine ⟨?_, ?_, ?_, ?_, h1, h2, ?_, ?_⟩
  · exact ⟨"Cant compare that type to a Card.", by simp [Card.sameRank, hty]⟩
  · exact ⟨"Cant compare that type to a Card.", by simp [Card.sameSuit, hty]⟩
  · exact ⟨"Cant compare that type to a Card.", by simp [Card.sameRank, hty.symm]⟩
  · exact ⟨"Cant compare that type to a Card.", by simp [Card.sameSuit, hty.symm]⟩
  · intro m
    rw [h1]
    exact schopskopfEq_no_typeError cfg s c m
  · intro m
    rw [h2]
    exact schopskopfEq_no_typeError cfg s c m

/-- Witness for the amended C10 at a showing ace of spades of each class. -/
theorem claim10_amended_type_check_witness :
    (∃ m, Card.sameRank defaultConfig aceSpadesUp schopskopfAceSpadesUp =
      Except.error (.typeError m)) ∧
    pyEq defaultConfig aceSpadesUp schopskopfAceSpadesUp =
      SchopskopfCard.eqMethod defaultConfig schopskopfAceSpadesUp aceSpadesUp :=
  ⟨(claim10_amended_type_check defaultConfig aceSpadesUp schopskopfAceSpadesUp rfl rfl).1,
   (claim10_amended_type_check defaultConfig aceSpadesUp schopskopfAceSpadesUp
      rfl rfl).2.2.2.2.1⟩

end Blackjack

namespace Blackjack

/-- The long name recovered from `names[shortNames.index(u)]` is exactly
the canonical name whose short form is `u`: mapping it back through
`shortNameDict` returns `u` itself. -/
lemma shortNameDict_roundtrip {u : String} (h : u ∈ Card.shortNames) :
    Card.shortNameDict (pyLower (Card.names.getD (Card.shortNames.indexOf u) "")) = u := by
  fin_cases h <;> decide

/-- Claim C5: construction succeeds exactly when the name matches a
canonical long name (lower-cased) or a canonical short form (upper-cased)
and the suit matches a canonical suit (lower-cased); on success the stored
name is a canonical long name and the stored suit is the lower-cased input;
a long-form name is stored as its own lower-casing, while a short-form name
is mapped to its corresponding canonical long name — the stored name comes
from `names[shortNames.index(...)]` and its `shortNameDict` entry is the
upper-cased input, pinning the correspondence; a bad name or a bad suit is
rejected with an `InvalidArgument` error (a `TypeError` in the source), the
name being checked first. -/
theorem claim5_init_validation (name suit : String) :
    (((pyLower name ∈ Card.names ∨ pyUpper name ∈ Card.shortNames) ∧
        pyLower suit ∈ Card.suits) →
      ∃ c, Card.init CType.card name suit = Except.ok c ∧
        c.name ∈ Card.names ∧
        c.suit = pyLower suit ∧
        c.suit ∈ Card.suits ∧
        (pyLower name ∈ Card.names → c.name = pyLower name) ∧
        (pyLower name ∉ Card.names →
          c.name = pyLower (Card.names.getD (Card.shortNames.indexOf (pyUpper name)) "") ∧
          Card.shortNameDict c.name = pyUpper name)) ∧
    ((pyLower name ∉ Card.names ∧ pyUpper name ∉ Card.shortNames) →
      Card.init CType.card name suit =
        Except.error (.typeError (name ++ " is not a valid card name."))) ∧
    ((pyLower name ∈ Card.names ∨ pyUpper name ∈ Card.shortNames) →
      pyLower suit ∉ Card.suits →
      Card.init CType.card name suit =
        Except.error (.typeError (suit ++ " is not a valid card suit."))) := by
  refine ⟨?_, ?_, ?_⟩
  · rintro ⟨hn, hs⟩
    by_cases h1 : pyLower name ∈ Card.names
    · have heq : Card.init CType.card name suit = Except.ok
          { name := pyLower name
            shortName := Card.shortNameDict (pyLower name)
            suit := pyLower suit
            rank := Card.rankDict (pyLower name)
            hardValue := Card.hardValueDict (pyLower name)
            softValue := Card.softValueDict (pyLower name)
            isFacecard := decide (pyLower name ∈ ["jack", "queen", "king"])
            isAce := pyLower name == "ace"
            isShowing := false
            ctype := CType.card } := by
        unfold Card.init
        rw [if_pos h1]
        exact initWithName_ok hs
      exact ⟨_, heq, h1, rfl, hs, fun _ => rfl, fun hx => absurd h1 hx⟩
    · have h2 : pyUpper name ∈ Card.shortNames := hn.resolve_left h1
      have heq : Card.init CType.card name suit = Except.ok
          { name := pyLower (Card.names.getD (Card.shortNames.indexOf (pyUpper name)) "")
            shortName := Card.shortNameDict
              (pyLower (Card.names.getD (Card.shortNames.indexOf (pyUpper name)) ""))
            suit := pyLower suit
            rank := Card.rankDict
              (pyLower (Card.names.getD (Card.shortNames.indexOf (pyUpper name)) ""))
            hardValue := Card.hardValueDict
              (pyLower (Card.names.getD (Card.shortNames.indexOf (pyUpper name)) ""))
            softValue := Card.softValueDict
              (pyLower (Card.names.getD (Card.shortNames.indexOf (pyUpper name)) ""))
            isFacecard := decide
              (pyLower (Card.names.getD (Card.shortNames.indexOf (pyUpper name)) "") ∈
                ["jack", "queen", "king"])
            isAce := pyLower (Card.names.getD (Card.shortNames.indexOf (pyUpper name)) "") == "ace"
            isShowing := false
            ctype := CType.card } := by
        unfold Card.init
        rw [if_neg h1, if_pos h2]
        exact initWithName_ok hs
      exact ⟨_, heq, short_roundtrip_mem h2, rfl, hs, fun hx => absurd hx h1,
        fun _ => ⟨rfl, shortNameDict_roundtrip h2⟩⟩
  · rintro ⟨h1, h2⟩
    unfold Card.init
    rw [if_neg h1, if_neg h2]
  · intro hn hs
    by_cases h1 : pyLower name ∈ Card.names
    · unfold Card.init
      rw [if_pos h1]
      unfold Card.initWithName
      rw [if_neg hs]
    · have h2 : pyUpper name ∈ Card.shortNames := hn.resolve_left h1
      unfold Card.init
      rw [if_neg h1, if_pos h2]
      unfold Card.initWithName
      rw [if_neg hs]

/-- Witness for C5: `Card('ACE', 'Spades')` succeeds with canonical stored
fields, the pure short form `Card('Q', 'hearts')` succeeds with its name
mapped to the corresponding long name, `Card('joker', 'spades')` fails on
the name, and `Card('ace', 'stars')` fails on the suit. -/
theorem claim5_init_validation_witness :
    (∃ c, Card.init CType.card "ACE" "Spades" = Except.ok c ∧
       c.name ∈ Card.names ∧
       c.suit = pyLower "Spades" ∧
       c.suit ∈ Card.suits ∧
       (pyLower "ACE" ∈ Card.names → c.name = pyLower "ACE") ∧
       (pyLower "ACE" ∉ Card.names →
         c.name = pyLower (Card.names.getD (Card.shortNames.indexOf (pyUpper "ACE")) "") ∧
         Card.shortNameDict c.name = pyUpper "ACE")) ∧
    (∃ c, Card.init CType.card "Q" "hearts" = Except.ok c ∧
       c.name ∈ Card.names ∧
       c.suit = pyLower "hearts" ∧
       c.suit ∈ Card.suits ∧
       (pyLower "Q" ∈ Card.names → c.name = pyLower "Q") ∧
       (pyLower "Q" ∉ Card.names →
         c.name = pyLower (Card.names.getD (Card.shortNames.indexOf (pyUpper "Q")) "") ∧
         Card.shortNameDict c.name = pyUpper "Q")) ∧
    Card.init CType.card "joker" "spades" =
      Except.error (.typeError ("joker" ++ " is not a valid card name.")) ∧
    Card.init CType.card "ace" "stars" =
      Except.error (.typeError ("stars" ++ " is not a valid card suit.")) :=
  ⟨(claim5_init_validation "ACE" "Spades").1 (by decide),
   (claim5_init_validation "Q" "hearts").1 (by decide),
   (claim5_init_validation "joker" "spades").2.1 (by decide),
   (claim5_init_validation "ace" "stars").2.2 (by decide) (by decide)⟩

end Blackjack

namespace Blackjack

/-- Claim C7: construction is invariant under case changes and under the
long/short spelling of the name.  A case variant of the canonical name `n`
is any string lower-casing to `n`; a case variant of the short form is any
string upper-casing to `shortNameDict n` (such a string never lower-cases
to a canonical long name, which the second disjunct records).  Any such
variant of the name, combined with any string lower-casing to the canonical
suit, constructs exactly the same stored state as `Card(n, s)`. -/
theorem claim7_init_case_invariance (n s n2 s2 : String)
    (hn : n ∈ Card.names) (hs : s ∈ Card.suits)
    (hn2 : pyLower n2 = n ∨
      (pyLower n2 ∉ Card.names ∧ pyUpper n2 = Card.shortNameDict n))
    (hs2 : pyLower s2 = s) :
    Card.init CType.card n2 s2 = Card.init CType.card n s := by
  have hln : pyLower n = n := pyLower_of_mem_names hn
  have hls : pyLower s = s := pyLower_of_mem_suits hs
  have hlsmem : pyLower s ∈ Card.suits := by
    rw [hls]
    exact hs
  have hcongr : ∀ m : String,
      Card.initWithName CType.card m s2 = Card.initWithName CType.card m s :=
    fun m => initWithName_suit_congr (by rw [hs2, hls]) hlsmem
  rcases hn2 with hA | ⟨hB1, hB2⟩
  · unfold Card.init
    rw [hA, hln, if_pos hn, if_pos hn]
    exact hcongr n
  · unfold Card.init
    rw [if_neg hB1, hB2, hln, if_pos hn]
    fin_cases hn <;> exact hcongr _

/-- Witness for C7: `Card('A', 'SPADES')` yields the same state as
`Card('ace', 'spades')`. -/
theorem claim7_init_case_invariance_witness :
    Card.init CType.card "A" "SPADES" = Card.init CType.card "ace" "spades" :=
  claim7_init_case_invariance "ace" "spades" "A" "SPADES"
    (by decide) (by decide) (Or.inr (by decide)) (by decide)

end Blackjack
